import Mathlib

/-!
Verification of the py-shiny reactive core and UI helpers.

The reactive engine (`shiny/reactives.py` / `shiny/reactcore.py`) is exercised
by `tests/test_reactives.py` but its implementation is not part of the source
tree given here, so the engine below is modelled from the specification
(spec.md §2-§5): reactive values, memoizing reactives, eager observers, a
flush scheduler, isolate scopes, and a cooperative round-robin coordinator
for asynchronous bodies.  The UI helpers (`shiny/navs.py`,
`shiny/ui/_modal.py`, `shiny/notifications.py`) are embedded directly from
their source.
-/

namespace Shiny

/-- A Python value as used by the reactive tests: an integer or `None`. -/
abbrev Val := Option Int

/-- Error outcomes are identified by an integer code. -/
abbrev Err := Nat

/-- Outcome of evaluating a reactive body: a value or a raised error. -/
abbrev RResult := Except Err Val

instance : DecidableEq RResult := fun x y =>
  match x, y with
  | .ok a, .ok b =>
      if h : a = b then isTrue (by rw [h]) else isFalse (by simp [h])
  | .ok _, .error _ => isFalse (by simp)
  | .error _, .ok _ => isFalse (by simp)
  | .error a, .error b =>
      if h : a = b then isTrue (by rw [h]) else isFalse (by simp [h])

/-- Identity of a reactive node that can appear as the current Context:
either an Observer (by index) or a Reactive (by index).
Modelled from the spec: "Context: a stack-scoped handle identifying the
reactive node (Reactive or Observer) currently executing". -/
inductive Node where
  | robs : Nat → Node
  | rre : Nat → Node
  deriving Repr, DecidableEq

/-- The ambient Context: `none` when code runs outside any reactive node.
Modelled from the spec (§3 Context, design note: "replace with an explicit
context-stack value threaded through calls"). -/
abbrev Ctx := Option Node

/-- Modelled from the spec: "ReactiveValue: holds `current`, `revision`
(bumped on every write whose new value differs from the old), `dependents`". -/
structure RValSt where
  current : Val
  revision : Nat
  dependents : List Node
  deriving Repr, DecidableEq

instance : Inhabited RValSt := ⟨⟨none, 0, []⟩⟩

/-- Modelled from the spec: "Reactive: `cachedValue | Invalid`, `cachedError`,
`valid`, `execCount`"; here `cache = none` encodes invalid, and a cached
outcome is a value or an error. -/
structure ReactSt where
  cache : Option RResult
  execCount : Nat
  dependents : List Node
  deriving Repr, DecidableEq

instance : Inhabited ReactSt := ⟨⟨none, 0, []⟩⟩

/-- Modelled from the spec: "Observer: `valid`, `execCount`, `enqueued`".
`lastResult` records the outcome of the most recent run (the tests capture
it through a `nonlocal` variable). -/
structure ObsSt where
  valid : Bool
  execCount : Nat
  enqueued : Bool
  lastResult : Option RResult
  deriving Repr, DecidableEq

instance : Inhabited ObsSt := ⟨⟨false, 0, false, none⟩⟩

/-- The whole engine state: the reactive values, reactives and observers
(each addressed by index), the insertion-ordered FlushQueue of pending
observer indices, and a trace of emitted labels (the tests' `exec_order`). -/
structure Engine where
  vals : List RValSt
  reacts : List ReactSt
  obs : List ObsSt
  flushQueue : List Nat
  trace : List String
  deriving Repr, DecidableEq

instance : Inhabited Engine := ⟨⟨[], [], [], [], []⟩⟩

/-- Replace the element at index `i` by `f` of it (identity out of range). -/
def modifyAt : List α → Nat → (α → α) → List α
  | [], _, _ => []
  | a :: as, 0, f => f a :: as
  | a :: as, n+1, f => a :: modifyAt as n f

/-- Append a dependent if it is not already recorded (dependency edges are a
set; list order keeps the spec's creation/first-read ordering). -/
def addDep (n : Node) (l : List Node) : List Node :=
  if n ∈ l then l else l ++ [n]

/-- Modelled from the spec: "the full edge set for a sink is discarded and
rebuilt at the start of every re-execution of that sink" — remove node `n`
from every source's dependent list. -/
def clearEdges (n : Node) (e : Engine) : Engine :=
  { e with
    vals := e.vals.map (fun r => { r with dependents := r.dependents.erase n }),
    reacts := e.reacts.map (fun r => { r with dependents := r.dependents.erase n }) }

/-- Modelled from the spec (§4.1 `read()`): "if a Context is current, adds a
DependencyEdge from this value to that Context"; with no Context, no edge. -/
def readV (i : Nat) (c : Ctx) (e : Engine) : Engine :=
  match c with
  | none => e
  | some n => { e with vals := modifyAt e.vals i (fun r => { r with dependents := addDep n r.dependents }) }

/-- Modelled from the spec (§4.1 `invoke()`): "If a Context was current when
`invoke()` was called, a DependencyEdge from this Reactive to that outer
Context is recorded before execution". -/
def recordEdgeR (i : Nat) (c : Ctx) (e : Engine) : Engine :=
  match c with
  | none => e
  | some n => { e with reacts := modifyAt e.reacts i (fun r => { r with dependents := addDep n r.dependents }) }

/-- Modelled from the spec (§4.2/§4.3 invalidation): a depth-first worklist.
Invalidating an Observer sets `valid := false` and enqueues it unless already
enqueued (coalescing); invalidating a Reactive clears its cache and
propagates to its dependents, whose edge list is consumed (a notification is
one-shot; edges are re-established on the next execution). -/
def invalidateNodes : Nat → List Node → Engine → Engine
  | _, [], e => e
  | 0, _ :: _, e => e
  | f+1, n :: rest, e =>
    match n with
    | .robs i =>
        let o := e.obs.getD i default
        let e1 := { e with
          obs := modifyAt e.obs i (fun x => { x with valid := false, enqueued := true }),
          flushQueue := if o.enqueued then e.flushQueue else e.flushQueue ++ [i] }
        invalidateNodes f rest e1
    | .rre i =>
        let deps := (e.reacts.getD i default).dependents
        let e1 := { e with reacts := modifyAt e.reacts i (fun r => { r with cache := none, dependents := [] }) }
        invalidateNodes f (deps ++ rest) e1

/-- Modelled from the spec (§4.1 `write(v)`): "if `v == current` (value
equality), no-op.  Otherwise sets `current = v`, bumps `revision`, and
invalidates every dependent transitively"; execution of any enqueued
Observer is deferred to the next flush. -/
def writeV (fuel : Nat) (i : Nat) (v : Val) (e : Engine) : Engine :=
  if v = (e.vals.getD i default).current then e
  else
    let deps := (e.vals.getD i default).dependents
    let e1 := { e with
      vals := modifyAt e.vals i (fun r => { r with current := v, revision := r.revision + 1, dependents := [] }) }
    invalidateNodes fuel deps e1

/-- Record a finished Reactive execution, modelled from the spec (§4.2):
"captures either a return value or a thrown error, marks `valid = true` ...
increments `execCount`". -/
def finishR (i : Nat) (res : RResult) (e : Engine) : Engine :=
  { e with reacts := modifyAt e.reacts i (fun r => { r with cache := some res, execCount := r.execCount + 1 }) }

/-- Record a finished Observer run: bump `execCount` and store the outcome. -/
def finishO (i : Nat) (res : RResult) (e : Engine) : Engine :=
  { e with obs := modifyAt e.obs i (fun o => { o with execCount := o.execCount + 1, lastResult := some res }) }

/-- The bodies that user code supplies: expressions over the engine's API.
`emit` prepends a label to the trace before its argument runs; `emitAfter`
appends it after its argument has produced a value; `sleep` is a suspension
point (`asyncio.sleep(0)`), and `sleepAfter` marks the suspension at the
completion of an awaited asynchronous Reactive; both are no-ops for the
synchronous evaluator. -/
inductive Exp where
  | lit : Val → Exp
  | readVal : Nat → Exp
  | writeVal : Nat → Exp → Exp
  | invoke : Nat → Exp
  | isolate : Exp → Exp
  | add : Exp → Exp → Exp
  | ifz : Exp → Exp → Exp → Exp
  | seq : Exp → Exp → Exp
  | emit : String → Exp → Exp
  | emitAfter : String → Exp → Exp
  | sleep : Exp
  | sleepAfter : Exp → Exp
  | throw : Err → Exp
  deriving Repr, DecidableEq

/-- Python `+` on our values (both operands must be integers). -/
def vadd : Val → Val → Val
  | some a, some b => some (a + b)
  | _, _ => none

/-- A program: the body of each Reactive and of each Observer, by index. -/
structure Program where
  rbody : Nat → Exp
  obody : Nat → Exp

/-- Big-step evaluator for the synchronous engine, modelled from the spec
(§4.1, §4.2, §4.5).  `isolate` evaluates its body with no current Context
("pushes no Context ... restores the prior Context on every exit path" —
the Context is threaded as a parameter, so restoration is intrinsic);
`invoke` of a valid Reactive returns or re-raises the cached outcome
without running the body; of an invalid one it clears the sink's stale
edges, runs the body under the Reactive's own Context, caches the outcome
and bumps `execCount`.  Fuel bounds recursive `invoke` depth; `none` means
out of fuel. -/
def evalE (P : Program) : Nat → Exp → Ctx → Engine → Option (Engine × RResult)
  | 0, _, _, _ => none
  | f+1, exp, c, e =>
    match exp with
    | .lit v => some (e, .ok v)
    | .readVal i => some (readV i c e, .ok ((e.vals.getD i default).current))
    | .writeVal i ex =>
        match evalE P f ex c e with
        | some (e1, .ok v) => some (writeV f i v e1, .ok v)
        | some (e1, .error err) => some (e1, .error err)
        | none => none
    | .add a b =>
        match evalE P f a c e with
        | some (e1, .ok v1) =>
            match evalE P f b c e1 with
            | some (e2, .ok v2) => some (e2, .ok (vadd v1 v2))
            | some (e2, .error err) => some (e2, .error err)
            | none => none
        | some (e1, .error err) => some (e1, .error err)
        | none => none
    | .ifz cnd t el =>
        match evalE P f cnd c e with
        | some (e1, .ok v) => if v = some 0 then evalE P f t c e1 else evalE P f el c e1
        | some (e1, .error err) => some (e1, .error err)
        | none => none
    | .seq a b =>
        match evalE P f a c e with
        | some (e1, .ok _) => evalE P f b c e1
        | some (e1, .error err) => some (e1, .error err)
        | none => none
    | .emit s ex => evalE P f ex c { e with trace := e.trace ++ [s] }
    | .emitAfter s ex =>
        match evalE P f ex c e with
        | some (e1, .ok v) => some ({ e1 with trace := e1.trace ++ [s] }, .ok v)
        | some (e1, .error err) => some (e1, .error err)
        | none => none
    | .sleep => some (e, .ok none)
    | .sleepAfter ex => evalE P f ex c e
    | .throw n => some (e, .error n)
    | .isolate ex => evalE P f ex none e
    | .invoke i =>
        let e1 := recordEdgeR i c e
        match (e1.reacts.getD i default).cache with
        | some res => some (e1, res)
        | none =>
            let e2 := clearEdges (.rre i) e1
            match evalE P f (P.rbody i) (some (.rre i)) e2 with
            | some (e3, res) => some (finishR i res e3, res)
            | none => none

/-- Modelled from the spec (§4.4 `flush()`): repeatedly pop the head of the
FlushQueue, mark it dequeued and valid *before* running it, clear its stale
edges, run its body under its own Context, and continue until the queue is
empty — including entries added during the drain.  On an Observer error the
drain stops and the error's outcome is recorded (spec §7 leaves continuing
the drain as an open choice; we stop).  `none` means out of fuel. -/
def flushLoop (P : Program) : Nat → Engine → Option Engine
  | 0, e => if e.flushQueue.isEmpty then some e else none
  | f+1, e =>
      match e.flushQueue with
      | [] => some e
      | i :: rest =>
          let e1 := { e with
            flushQueue := rest,
            obs := modifyAt e.obs i (fun o => { o with enqueued := false, valid := true }) }
          let e2 := clearEdges (.robs i) e1
          match evalE P f (P.obody i) (some (.robs i)) e2 with
          | some (e3, .ok v) => flushLoop P f (finishO i (.ok v) e3)
          | some (e3, .error err) => some (finishO i (.error err) e3)
          | none => none

/-! ### The cooperative asynchronous coordinator (claim C5)

Modelled from the spec (§4.6, §5): each asynchronous body is a sequence of
synchronous segments separated by explicit suspension points; a fair
round-robin scheduler resumes suspended bodies in launch order.  The body
language is run by a small-step frame machine so that a segment can end
inside a nested `invoke`.  `await r()` from an Observer suspends both when
the await is reached and when the awaited Reactive completes (the awaited
body runs as its own task-step in the event loop), which the tests'
expected `exec_order` documents. -/

/-- A continuation frame of the small-step machine. -/
inductive Frame where
  | writeK : Nat → Frame
  | addL : Exp → Frame
  | addR : Val → Frame
  | ifzK : Exp → Exp → Frame
  | seqK : Exp → Frame
  | emitAfterK : String → Frame
  | sleepAfterK : Frame
  | popCtx : Ctx → Frame
  | finishReact : Nat → Ctx → Frame
  deriving Repr, DecidableEq

/-- The control of a task: evaluating an expression or returning a result. -/
inductive Control where
  | ev : Exp → Control
  | ret : RResult → Control
  deriving Repr, DecidableEq

/-- One in-flight asynchronous Observer execution: its control, frame stack,
ambient Context (per logical strand, spec §3) and owning observer index. -/
structure Task where
  control : Control
  stack : List Frame
  ctx : Ctx
  obsId : Nat
  deriving Repr, DecidableEq

/-- Result of one machine step: still running, suspended at a suspension
point, or finished with an outcome. -/
inductive StepRes where
  | running : Engine → Task → StepRes
  | sleeping : Engine → Task → StepRes
  | finished : Engine → RResult → StepRes
  deriving Repr, DecidableEq

/-- One small step of an asynchronous body.  Mirrors `evalE` case by case:
reads record edges, writes invalidate, `isolate` suspends the ambient
Context via a `popCtx` frame restored on every exit path (also on errors),
`invoke` of an invalid Reactive enters its body under a `finishReact` frame
that caches the outcome, bumps the count and restores the caller Context.
`sleep` and the completion of a `sleepAfter` are the suspension points. -/
def step (P : Program) (fuel : Nat) (e : Engine) (t : Task) : StepRes :=
  match t.control with
  | .ev x =>
    match x with
    | .lit v => .running e { t with control := .ret (.ok v) }
    | .readVal i =>
        .running (readV i t.ctx e)
          { t with control := .ret (.ok ((e.vals.getD i default).current)) }
    | .writeVal i ex => .running e { t with control := .ev ex, stack := .writeK i :: t.stack }
    | .add a b => .running e { t with control := .ev a, stack := .addL b :: t.stack }
    | .ifz c1 th el => .running e { t with control := .ev c1, stack := .ifzK th el :: t.stack }
    | .seq a b => .running e { t with control := .ev a, stack := .seqK b :: t.stack }
    | .emit s ex => .running { e with trace := e.trace ++ [s] } { t with control := .ev ex }
    | .emitAfter s ex => .running e { t with control := .ev ex, stack := .emitAfterK s :: t.stack }
    | .sleepAfter ex => .running e { t with control := .ev ex, stack := .sleepAfterK :: t.stack }
    | .sleep => .sleeping e { t with control := .ret (.ok none) }
    | .throw n => .running e { t with control := .ret (.error n) }
    | .isolate ex =>
        .running e { t with control := .ev ex, stack := .popCtx t.ctx :: t.stack, ctx := none }
    | .invoke i =>
        let e1 := recordEdgeR i t.ctx e
        match (e1.reacts.getD i default).cache with
        | some res => .running e1 { t with control := .ret res }
        | none =>
            let e2 := clearEdges (.rre i) e1
            .running e2 { t with control := .ev (P.rbody i), stack := .finishReact i t.ctx :: t.stack, ctx := some (.rre i) }
  | .ret r =>
    match t.stack with
    | [] => .finished e r
    | fr :: rest =>
      match fr, r with
      | .writeK i, .ok v =>
          .running (writeV fuel i v e) { t with control := .ret (.ok v), stack := rest }
      | .addL b, .ok v => .running e { t with control := .ev b, stack := .addR v :: rest }
      | .addR v1, .ok v2 =>
          .running e { t with control := .ret (.ok (vadd v1 v2)), stack := rest }
      | .ifzK th el, .ok v =>
          .running e { t with control := .ev (if v = some 0 then th else el), stack := rest }
      | .seqK b, .ok _ => .running e { t with control := .ev b, stack := rest }
      | .emitAfterK s, .ok v =>
          .running { e with trace := e.trace ++ [s] } { t with control := .ret (.ok v), stack := rest }
      | .sleepAfterK, .ok v => .sleeping e { t with control := .ret (.ok v), stack := rest }
      | .popCtx c, r1 => .running e { t with control := .ret r1, stack := rest, ctx := c }
      | .finishReact i c, r1 =>
          .running (finishR i r1 e) { t with control := .ret r1, stack := rest, ctx := c }
      | _, .error err => .running e { t with control := .ret (.error err), stack := rest }

/-- Run one synchronous segment: step until the task suspends (`some task`)
or finishes (`none`, with the observer's run recorded). -/
def runSegment (P : Program) : Nat → Nat → Engine → Task → Option (Engine × Option Task)
  | 0, _, _, _ => none
  | f+1, ivf, e, t =>
    match step P ivf e t with
    | .running e1 t1 => runSegment P f ivf e1 t1
    | .sleeping e1 t1 => some (e1, some t1)
    | .finished e1 r => some (finishO t.obsId r e1, none)

/-- The fair ready queue (spec §4.6): run the head task's next segment; a
suspended task goes to the back, so tasks launched together are resumed in
launch order, giving lock-step interleaving at matching suspension points. -/
def roundRobin (P : Program) : Nat → Nat → Nat → Engine → List Task → Option Engine
  | _, _, _, e, [] => some e
  | 0, _, _, _, _ :: _ => none
  | f+1, segf, ivf, e, t :: rest =>
      match runSegment P segf ivf e t with
      | some (e1, some t1) => roundRobin P f segf ivf e1 (rest ++ [t1])
      | some (e1, none) => roundRobin P f segf ivf e1 rest
      | none => none

/-- A fresh task for Observer `i`: its body, an empty frame stack, its own
Context. -/
def mkTask (P : Program) (i : Nat) : Task :=
  { control := .ev (P.obody i), stack := [], ctx := some (.robs i), obsId := i }

/-- Modelled from the spec (§4.4 async variant, §5): an asynchronous flush
takes the currently queued Observers, marks each dequeued and valid and
clears its stale edges, launches them as tasks in queue order, drives them
to completion with the fair round-robin scheduler, and repeats for any
Observers enqueued meanwhile; it returns only when the queue is empty and
no launched run is still pending. -/
def flushAsync (P : Program) : Nat → Engine → Option Engine
  | 0, e => if e.flushQueue.isEmpty then some e else none
  | f+1, e =>
    match e.flushQueue with
    | [] => some e
    | ids =>
        let e1 := { e with flushQueue := [] }
        let e2 := ids.foldl (fun acc i =>
          clearEdges (.robs i)
            { acc with obs := modifyAt acc.obs i (fun o => { o with enqueued := false, valid := true }) }) e1
        match roundRobin P 200 100 30 e2 (ids.map (mkTask P)) with
        | some e3 => flushAsync P f e3
        | none => none

/-! ### Scenario of `test_async_concurrent` (claim C5)

`x = ReactiveVal 1` is value 0.  Chain `n` (n = 1, 2) is ObserverAsync
`n-1` awaiting ReactiveAsync `n-1`; each body has one explicit suspension
point (`asyncio.sleep(0)`), and the `await r()` suspends at entry and at
the awaited Reactive's completion.  Chain `n` computes `x + 10 + 100 n`. -/
def c5Prog : Program :=
  { rbody := fun n =>
      if n = 0 then
        .emit "r1-1" (.seq .sleep (.emit "r1-2" (.add (.readVal 0) (.lit (some 10)))))
      else
        .emit "r2-1" (.seq .sleep (.emit "r2-2" (.add (.readVal 0) (.lit (some 10))))),
    obody := fun n =>
      if n = 0 then
        .emit "o1-1" (.seq .sleep (.emit "o1-2"
          (.add (.emitAfter "o1-3" (.sleepAfter (.seq .sleep (.invoke 0)))) (.lit (some 100)))))
      else
        .emit "o2-1" (.seq .sleep (.emit "o2-2"
          (.add (.emitAfter "o2-3" (.sleepAfter (.seq .sleep (.invoke 1)))) (.lit (some 200))))) }

def c5Init : Engine :=
  { vals := [⟨some 1, 0, []⟩],
    reacts := [⟨none, 0, []⟩, ⟨none, 0, []⟩],
    obs := [⟨false, 0, true, none⟩, ⟨false, 0, true, none⟩],
    flushQueue := [0, 1],
    trace := [] }

/-- The synchronous segments of chain 1, in order, as emitted labels. -/
def c5Segs1 : List (List String) := [["o1-1"], ["o1-2"], ["r1-1"], ["r1-2"], ["o1-3"]]

/-- The synchronous segments of chain 2, in order, as emitted labels. -/
def c5Segs2 : List (List String) := [["o2-1"], ["o2-2"], ["r2-1"], ["r2-2"], ["o2-3"]]

/-- Lock-step interleaving of two segment sequences in launch order:
one segment of the first, one of the second, and so on. -/
def lockStep : List (List α) → List (List α) → List α
  | [], ys => ys.flatten
  | x :: xs, [] => (x :: xs).flatten
  | x :: xs, y :: ys => x ++ y ++ lockStep xs ys

/-- Engine state after the first asynchronous `flush()` of the C5 scenario. -/
def c5Mid : Engine := (flushAsync c5Prog 5 c5Init).getD default

/-- Engine state after `x(5)` and the second asynchronous `flush()`. -/
def c5End : Engine := (flushAsync c5Prog 5 (writeV 30 0 (some 5) c5Mid)).getD default

/-! ### Scenario of `test_flush_runs_newly_invalidated` (claim C1)

`v1 = ReactiveVal 1` is value 0, `v2 = ReactiveVal 2` is value 1.
Observer 0 is `o2` (created first; reads `v2`), Observer 1 is `o1`
(sets `v2 = v1`).  Both are created already scheduled, in creation order. -/
def c1Prog : Program :=
  { rbody := fun _ => .lit none,
    obody := fun i => if i = 0 then .readVal 1 else .writeVal 1 (.readVal 0) }

def c1Init : Engine :=
  { vals := [⟨some 1, 0, []⟩, ⟨some 2, 0, []⟩],
    reacts := [],
    obs := [⟨false, 0, true, none⟩, ⟨false, 0, true, none⟩],
    flushQueue := [0, 1],
    trace := [] }

/-- The engine state after the single `flush()` of the C1 scenario. -/
def c1Final : Engine := (flushLoop c1Prog 100 c1Init).getD default

/-! ### Scenario of `test_recursive_reactive` (claim C3)

`v = ReactiveVal 5` is value 0; Reactive 0 is `r` (returns 0 when `v == 0`,
otherwise decrements `v` and recurses on itself); Observer 0 invokes `r`. -/
def c3Prog : Program :=
  { rbody := fun _ =>
      .ifz (.readVal 0) (.lit (some 0))
        (.seq (.writeVal 0 (.add (.readVal 0) (.lit (some (-1))))) (.invoke 0)),
    obody := fun _ => .invoke 0 }

def c3Init : Engine :=
  { vals := [⟨some 5, 0, []⟩],
    reacts := [⟨none, 0, []⟩],
    obs := [⟨false, 0, true, none⟩],
    flushQueue := [0],
    trace := [] }

/-- The engine state after the single `flush()` of the C3 scenario. -/
def c3Final : Engine := (flushLoop c3Prog 100 c3Init).getD default

/-- A trivial program (all bodies return `None`). -/
def trivProg : Program :=
  { rbody := fun _ => .lit none, obody := fun _ => .lit none }

/-- Witness engine for claim C2: one value `7`, one observer depending on
it, queue empty (quiescent). -/
def c2WitEngine : Engine :=
  { vals := [⟨some 7, 3, [.robs 0]⟩],
    reacts := [],
    obs := [⟨true, 1, false, some (.ok (some 7))⟩],
    flushQueue := [],
    trace := [] }

/-- The witness program for C7: Reactive 0 always throws error code 7. -/
def c7WitProg : Program :=
  { rbody := fun _ => .throw 7, obody := fun _ => .lit none }

/-- The witness engine for C7: one invalid reactive, nothing else. -/
def c7WitEngine : Engine :=
  { vals := [], reacts := [⟨none, 0, []⟩], obs := [], flushQueue := [], trace := [] }

/-! ### Scenario of `test_isolate_prevents_dependency` (claim C4)

`v = ReactiveVal 1` is value 0, `v_dep = ReactiveVal 1` is value 1;
Reactive 0 is `r = v + 10`; Observer 0 reads `v_dep` directly and reads `r`
only inside `isolate()`.  `c4SpecStep` is the claim's predicted behaviour of
one write-then-flush step on the abstract state (current `v`, current
`v_dep`, observer execution count, captured result): a write to `v` never
re-runs the observer; a write to `v_dep` with a different value re-runs it
exactly once and the captured result becomes the current `v + 10`. -/
def c4Prog : Program :=
  { rbody := fun _ => .add (.readVal 0) (.lit (some 10)),
    obody := fun _ => .seq (.readVal 1) (.isolate (.invoke 0)) }

def c4Init : Engine :=
  { vals := [⟨some 1, 0, []⟩, ⟨some 1, 0, []⟩],
    reacts := [⟨none, 0, []⟩],
    obs := [⟨false, 0, true, none⟩],
    flushQueue := [0],
    trace := [] }

def c4Start : Engine := (flushLoop c4Prog 30 c4Init).getD default

def c4SpecStep : (Int × Int × Nat × Int) → (Bool × Int) → (Int × Int × Nat × Int)
  | (_, vd, k, res), (false, x) => (x, vd, k, res)
  | (v, vd, k, res), (true, y) => if y = vd then (v, vd, k, res) else (v, y, k+1, v + 10)

def c4SpecRun : (Int × Int × Nat × Int) → List (Bool × Int) → (Int × Int × Nat × Int)
  | s, [] => s
  | s, w :: ws => c4SpecRun (c4SpecStep s w) ws

def c4Apply (e : Engine) (w : Bool × Int) : Option Engine :=
  flushLoop c4Prog 30 (writeV 30 (if w.1 then 1 else 0) (some w.2) e)

def c4Run : Engine → List (Bool × Int) → Option Engine
  | e, [] => some e
  | e, w :: ws =>
      match c4Apply e w with
      | some e1 => c4Run e1 ws
      | none => none

/-- The reachable-state invariant of the C4 scenario: the engine is the
quiescent configuration determined by the abstract state, the only possible
edge from `v` is to the Reactive, the Reactive has no dependents (its value
was always read under `isolate`), and a valid cache holds `v + 10`. -/
def C4Inv : (Int × Int × Nat × Int) → Engine → Prop
  | (v, vd, k, res), e =>
    ∃ (ra rb n : Nat) (dva : List Node) (cache : Option RResult),
      e = { vals := [⟨some v, ra, dva⟩, ⟨some vd, rb, [.robs 0]⟩],
            reacts := [⟨cache, n, []⟩],
            obs := [⟨true, k, false, some (.ok (some res))⟩],
            flushQueue := [], trace := [] } ∧
      (dva = [] ∨ dva = [.rre 0]) ∧
      (cache = none ∨ (cache = some (.ok (some (v + 10))) ∧ dva = [.rre 0]))

/-! ### UI builders (`shiny/navs.py`, `shiny/ui/_modal.py`) and
notifications (`shiny/notifications.py`)

The markup tree (`htmltools`, an external collaborator) is modelled
structurally; the builder functions are translated from their source.  The
session transport is modelled as an outbox list of messages, and the whole
mutable program state seen by UI code is the reactive `Engine` together
with that outbox. -/
mutual

/-- An attribute / JSX-prop value: string, bool, number, `None`, or a
nested tag (JSX components accept tag-valued props such as `header=`). -/
inductive AVal where
  | s : String → AVal
  | b : Bool → AVal
  | n : Int → AVal
  | null : AVal
  | tagv : HTag → AVal

/-- A markup tree: a plain element, a JSX component tag, the `nav_deps()`
HTML dependency, the modal's bootstrap-activation script (opaque JS), a
text node, or Python `None` used as a child. -/
inductive HTag where
  | el : String → List (String × AVal) → List HTag → HTag
  | jsxEl : String → List (String × AVal) → List HTag → HTag
  | navDeps : HTag
  | scriptJS : HTag
  | txt : String → HTag
  | null : HTag
end

/-- Python truthiness of an optional string (`None` and `""` are falsy). -/
def pyTruthyStr : Option String → Bool
  | none => false
  | some s => !(s = "")

/-- Python truthiness of an optional number (`None` and `0` are falsy). -/
def pyTruthyNum : Option Int → Bool
  | none => false
  | some d => !(d = 0)

/-- Python `str()` of an attribute value. -/
def avalStr : AVal → String
  | .s v => v
  | .b v => if v then "True" else "False"
  | .n v => toString v
  | .null => "None"
  | .tagv _ => "tag"

/-- An `Optional[str]` keyword argument as a JSX prop value. -/
def optS : Option String → AVal
  | some v => .s v
  | none => .null

/-- An `Optional[TagChildArg]` keyword argument as a JSX prop value. -/
def optT : Option HTag → AVal
  | some t => .tagv t
  | none => .null

/-- Source `nav_tag(name, *args, **kwargs)`: builds `jsx_tag("bslib." + name)`
applied to `nav_deps()` followed by the children, with the given props. -/
def nav_tag (name : String) (args : List HTag) (kwargs : List (String × AVal)) : HTag :=
  .jsxEl ("bslib." ++ name) kwargs (.navDeps :: args)

/-- Source `nav(title, *args, value=None)`: `if not value: value = title`. -/
def nav (title : AVal) (args : List HTag) (value : Option String) : HTag :=
  let v : AVal := if pyTruthyStr value then .s (value.getD "") else title
  nav_tag "Nav" args [("value", v), ("title", title)]

/-- Source `nav_menu(title, *args, value=None, align="left")`:
`if not value: value = str(title)`. -/
def nav_menu (title : AVal) (args : List HTag) (value : Option String)
    (align : String) : HTag :=
  let v : AVal := if pyTruthyStr value then .s (value.getD "") else .s (avalStr title)
  nav_tag "NavMenu" args [("value", v), ("title", title), ("align", .s align)]

/-- Source `nav_item(*args)`. -/
def nav_item (args : List HTag) : HTag :=
  nav_tag "NavItem" args []

/-- Source `nav_spacer()`. -/
def nav_spacer : HTag :=
  nav_tag "NavSpacer" [] []

/-- Source `navs_tab(*args, id=None, selected=None, header=None, footer=None)`. -/
def navs_tab (args : List HTag) (id selected : Option String)
    (header footer : Option HTag) : HTag :=
  nav_tag "Navs" args
    [("type", .s "tabs"), ("id", optS id), ("selected", optS selected),
     ("header", optT header), ("footer", optT footer)]

/-- Source `navs_tab_card(...)`: as `navs_tab` but the `NavsCard` component. -/
def navs_tab_card (args : List HTag) (id selected : Option String)
    (header footer : Option HTag) : HTag :=
  nav_tag "NavsCard" args
    [("type", .s "tabs"), ("id", optS id), ("selected", optS selected),
     ("header", optT header), ("footer", optT footer)]

/-- Source `navs_pill(...)`. -/
def navs_pill (args : List HTag) (id selected : Option String)
    (header footer : Option HTag) : HTag :=
  nav_tag "Navs" args
    [("type", .s "pills"), ("id", optS id), ("selected", optS selected),
     ("header", optT header), ("footer", optT footer)]

/-- Source `navs_pill_card(..., placement="above")`. -/
def navs_pill_card (args : List HTag) (id selected : Option String)
    (header footer : Option HTag) (placement : String) : HTag :=
  nav_tag "NavsCard" args
    [("type", .s "pills"), ("id", optS id), ("selected", optS selected),
     ("header", optT header), ("footer", optT footer),
     ("placement", .s placement)]

/-- Source `navs_pill_list(..., well=True, fluid=True, widths=(4, 8))`; the source
accepts `fluid` but does not forward it, and spreads `widths` into
`widthNav` / `widthContent`. -/
def navs_pill_list (args : List HTag) (id selected : Option String)
    (header footer : Option HTag) (well : Bool) (fluid : Bool)
    (widths : Int × Int) : HTag :=
  nav_tag "NavsList" args
    [("id", optS id), ("selected", optS selected),
     ("header", optT header), ("footer", optT footer),
     ("well", .b well), ("widthNav", .n widths.1), ("widthContent", .n widths.2)]

/-- Source `navs_bar(*args, title=None, id=None, selected=None,
position="static-top", header=None, footer=None, bg=None, inverse="auto",
collapsible=True, fluid=True)`. -/
def navs_bar (args : List HTag) (title : Option String) (id selected : Option String)
    (position : String) (header footer : Option HTag) (bg : Option String)
    (inverse : AVal) (collapsible : Bool) (fluid : Bool) : HTag :=
  nav_tag "NavsBar" args
    [("title", optS title), ("id", optS id), ("selected", optS selected),
     ("position", .s position), ("header", optT header), ("footer", optT footer),
     ("bg", optS bg), ("inverse", inverse), ("collapsible", .b collapsible),
     ("fluid", .b fluid)]

/-- Source `modal_button(label, icon=None, **kwargs)`. -/
def modal_button (label : HTag) (icon : HTag) (kwargs : List (String × AVal)) : HTag :=
  .el "button"
    ([("class", .s "btn btn-default"), ("type", .s "button"),
      ("data-dismiss", .s "modal"), ("data-bs-dismiss", .s "modal")] ++ kwargs)
    [icon, label]

/-- The size-class suffix map of `modal`:
`{"s": " modal-sm", "l": " modal-lg", "xl": " modal-xl"}.get(size, "")`. -/
def modalSizeSuffix : String → String
  | "s" => " modal-sm"
  | "l" => " modal-lg"
  | "xl" => " modal-xl"
  | _ => ""

/-- Source `modal(*args, title=None, footer=None, size="m", easy_close=False,
dismiss_button=True, fade=True, **kwargs)`, translated from
`shiny/ui/_modal.py`; the bootstrap-show `<script>` is kept opaque. -/
def modal (args : List HTag) (title : Option String) (footer : Option HTag)
    (size : String) (easy_close : Bool) (dismiss_button : Bool) (fade : Bool)
    (kwargs : List (String × AVal)) : HTag :=
  let title_div : HTag :=
    if pyTruthyStr title then
      .el "div" [("class", .s "modal-header")]
        [.el "h4" [("class", .s "modal-title")] [.txt (title.getD "")]]
    else .null
  let footer2 : HTag :=
    if footer.isSome || dismiss_button then
      .el "div" [("class", .s "modal-footer")]
        [footer.getD .null,
         if dismiss_button then modal_button (.txt "Dismiss") .null [] else .null]
    else footer.getD .null
  let dialog : HTag :=
    .el "div" [("class", .s ("modal-dialog" ++ modalSizeSuffix size))]
      [.el "div" [("class", .s "modal-content")]
        [title_div,
         .el "div" ([("class", .s "modal-body")] ++ kwargs) args,
         footer2]]
  let backdrop : AVal := if easy_close then .null else .s "static"
  let keyboard : AVal := if easy_close then .null else .s "false"
  .el "div"
    [("id", .s "shiny-modal"),
     ("class", .s (if fade then "modal fade" else "modal")),
     ("tabindex", .s "-1"),
     ("data-backdrop", backdrop), ("data-bs-backdrop", backdrop),
     ("data-keyboard", keyboard), ("data-bs-keyboard", keyboard)]
    [dialog, .scriptJS]

/-- The payload of a "show" notification message, from
`shiny/notifications.py`; `duration = none` models the absence of the
`"duration"` key. -/
structure NotifPayload where
  html : String
  action : String
  deps : List String
  closeButton : Bool
  id : String
  type : String
  duration : Option Int
  deriving Repr, DecidableEq

/-- A message sent to the session (`session.send_message(...)`).
`notifRemove`'s field is the `"message"` entry, always `None` in the
source. -/
inductive SessMsg where
  | notifShow : NotifPayload → SessMsg
  | notifRemove : Option NotifPayload → SessMsg
  deriving Repr, DecidableEq

/-- The session, modelled as its outbox of sent messages. -/
abbrev Session := List SessMsg

/-- The hexadecimal digit character for a value below 16. -/
def hexChar (k : Nat) : Char :=
  if k < 10 then Char.ofNat (48 + k) else Char.ofNat (87 + k)

/-- The hexadecimal digit characters. -/
def hexDigits : List Char := (List.range 16).map hexChar

/-- Modelled from the spec: `rand_hex(n)` of `shiny/utils.py` (not under
`src/`), a generator of `n` random hexadecimal characters; randomness is
modelled by an explicit `seed`. -/
def rand_hex (seed : Nat) (n : Nat) : String :=
  String.mk ((List.range n).map (fun i => hexDigits.getD (seed / 16 ^ i % 16) '0'))

/-- The result of `process_deps(x, session)`: processed HTML plus its
dependency list (an external utility, passed in as already-processed
data). -/
structure ProcessedDeps where
  html : String
  dependencies : List String
  deriving Repr, DecidableEq

/-- Source `notification_show(ui, action, duration=5, close_button=True, id=None,
type="default", session)`, translated from `shiny/notifications.py`: builds
the payload (with `"id": id if id else rand_hex(8)`), adds `"duration":
duration * 1000` only when `duration` is truthy, and sends a
`{"notification": {"type": "show", "message": payload}}` message. -/
def notification_show (ui action : ProcessedDeps) (duration : Option Int)
    (close_button : Bool) (id : Option String) (type : String) (seed : Nat)
    (session : Session) : Session :=
  let payload : NotifPayload :=
    { html := ui.html,
      action := action.html,
      deps := ui.dependencies ++ action.dependencies,
      closeButton := close_button,
      id := if pyTruthyStr id then id.getD "" else rand_hex seed 8,
      type := type,
      duration := if pyTruthyNum duration then some ((duration.getD 0) * 1000) else none }
  session ++ [.notifShow payload]

/-- The payload `notification_show` sends, for stating claims about it. -/
def shownPayload (ui action : ProcessedDeps) (duration : Option Int)
    (close_button : Bool) (id : Option String) (type : String) (seed : Nat) :
    NotifPayload :=
  { html := ui.html,
    action := action.html,
    deps := ui.dependencies ++ action.dependencies,
    closeButton := close_button,
    id := if pyTruthyStr id then id.getD "" else rand_hex seed 8,
    type := type,
    duration := if pyTruthyNum duration then some ((duration.getD 0) * 1000) else none }

/-- Source `notification_remove(id, session)`, translated from
`shiny/notifications.py`: sends `{"notification": {"type": "remove",
"message": None}}` and returns `id`. -/
def notification_remove (id : String) (session : Session) : Session × String :=
  (session ++ [.notifRemove none], id)

/-- The mutable program state visible to UI code: the reactive engine and
the session outbox. -/
abbrev UIState := Engine × Session

/-- Builder `nav` in state-passing form: its body only constructs markup. -/
def navS (title : AVal) (args : List HTag) (value : Option String)
    (st : UIState) : UIState × HTag :=
  (st, nav title args value)

/-- Builder `nav_menu` in state-passing form. -/
def nav_menuS (title : AVal) (args : List HTag) (value : Option String)
    (align : String) (st : UIState) : UIState × HTag :=
  (st, nav_menu title args value align)

/-- Builder `nav_item` in state-passing form. -/
def nav_itemS (args : List HTag) (st : UIState) : UIState × HTag :=
  (st, nav_item args)

/-- Builder `nav_spacer` in state-passing form. -/
def nav_spacerS (st : UIState) : UIState × HTag :=
  (st, nav_spacer)

/-- Builder `navs_tab` in state-passing form. -/
def navs_tabS (args : List HTag) (id selected : Option String)
    (header footer : Option HTag) (st : UIState) : UIState × HTag :=
  (st, navs_tab args id selected header footer)

/-- Builder `navs_tab_card` in state-passing form. -/
def navs_tab_cardS (args : List HTag) (id selected : Option String)
    (header footer : Option HTag) (st : UIState) : UIState × HTag :=
  (st, navs_tab_card args id selected header footer)

/-- Builder `navs_pill` in state-passing form. -/
def navs_pillS (args : List HTag) (id selected : Option String)
    (header footer : Option HTag) (st : UIState) : UIState × HTag :=
  (st, navs_pill args id selected header footer)

/-- Builder `navs_pill_card` in state-passing form. -/
def navs_pill_cardS (args : List HTag) (id selected : Option String)
    (header footer : Option HTag) (placement : String) (st : UIState) :
    UIState × HTag :=
  (st, navs_pill_card args id selected header footer placement)

/-- Builder `navs_pill_list` in state-passing form. -/
def navs_pill_listS (args : List HTag) (id selected : Option String)
    (header footer : Option HTag) (well : Bool) (fluid : Bool)
    (widths : Int × Int) (st : UIState) : UIState × HTag :=
  (st, navs_pill_list args id selected header footer well fluid widths)

/-- Builder `navs_bar` in state-passing form. -/
def navs_barS (args : List HTag) (title : Option String)
    (id selected : Option String) (position : String)
    (header footer : Option HTag) (bg : Option String) (inverse : AVal)
    (collapsible : Bool) (fluid : Bool) (st : UIState) : UIState × HTag :=
  (st, navs_bar args title id selected position header footer bg inverse
    collapsible fluid)

/-- Builder `modal_button` in state-passing form. -/
def modal_buttonS (label : HTag) (icon : HTag) (kwargs : List (String × AVal))
    (st : UIState) : UIState × HTag :=
  (st, modal_button label icon kwargs)

/-- Builder `modal` in state-passing form. -/
def modalS (args : List HTag) (title : Option String) (footer : Option HTag)
    (size : String) (easy_close : Bool) (dismiss_button : Bool) (fade : Bool)
    (kwargs : List (String × AVal)) (st : UIState) : UIState × HTag :=
  (st, modal args title footer size easy_close dismiss_button fade kwargs)

/-! ## Theorems -/

/-- C1: in the two-observer scenario (`v1=1`, `v2=2`; `o1` sets `v2 = v1`;
`o2`, created before `o1`, reads `v2`), a single `flush()` completes, the
observer `o2` invalidated during the drain is re-processed before that same
flush returns, the captured result of `o2` equals 1, `o1`'s execution count
equals 1, and `o2`'s execution count equals 2. -/
theorem c1_flush_runs_newly_invalidated :
    (flushLoop c1Prog 100 c1Init).isSome = true ∧
    (c1Final.obs.getD 0 default).lastResult = some (.ok (some 1)) ∧
    (c1Final.obs.getD 1 default).execCount = 1 ∧
    (c1Final.obs.getD 0 default).execCount = 2 ∧
    c1Final.flushQueue = [] := by
  decide

/-- C3: a Reactive reading `v = ReactiveVal 5`, decrementing it once per call
and recursing on itself until `v` reaches 0, invoked from a single Observer:
recursion is permitted (no cycle rejection — the nested `invoke` calls all
complete), and after one `flush()` the Reactive's execution count is 6, the
owning Observer's execution count is 2, and `isolate(v)` reads 0. -/
theorem c3_recursive_reactive :
    (flushLoop c3Prog 100 c3Init).isSome = true ∧
    (c3Final.reacts.getD 0 default).execCount = 6 ∧
    (c3Final.obs.getD 0 default).execCount = 2 ∧
    evalE c3Prog 10 (.isolate (.readVal 0)) none c3Final =
      some (c3Final, .ok (some 0)) := by
  decide

/-! ### Helper lemmas -/

/-- Lemma: `modifyAt` at index `i`, observed at index `j` through `getD`. -/
theorem modifyAt_getD (l : List α) (i j : Nat) (f : α → α) (d : α) :
    (modifyAt l i f).getD j d =
      if j = i ∧ j < l.length then f (l.getD j d) else l.getD j d := by
  induction l generalizing i j with
  | nil => simp [modifyAt]
  | cons a as ih =>
    cases i with
    | zero =>
      cases j with
      | zero => simp [modifyAt]
      | succ j => simp [modifyAt]
    | succ i =>
      cases j with
      | zero => simp [modifyAt]
      | succ j =>
        simp only [modifyAt, List.getD_cons_succ, List.length_cons, ih]
        by_cases h : j = i ∧ j < as.length
        · rw [if_pos h, if_pos ⟨by omega, by omega⟩]
        · rw [if_neg h, if_neg (by omega)]

/-- A flush of an empty queue is a no-op, whatever the fuel. -/
theorem flushLoop_empty (P : Program) (n : Nat) (e : Engine)
    (h : e.flushQueue = []) : flushLoop P n e = some e := by
  cases n with
  | zero => simp [flushLoop, h]
  | succ n => simp [flushLoop, h]

/-- C2: writing a value equal under `==` to a ReactiveValue's current value
changes nothing observable: the engine state is literally unchanged (so the
revision is not bumped, no dependent is invalidated, nothing is enqueued),
and when the engine is quiescent any subsequent `flush()` returns the same
state, leaving every Observer's execution count unchanged. -/
theorem c2_same_value_write_no_invalidate
    (e : Engine) (i : Nat) (x : Val) (fuel : Nat)
    (h : x = (e.vals.getD i default).current) :
    writeV fuel i x e = e ∧
    ((writeV fuel i x e).vals.getD i default).revision =
      ((e.vals.getD i default)).revision ∧
    (writeV fuel i x e).flushQueue = e.flushQueue ∧
    (∀ P n, e.flushQueue = [] → flushLoop P n (writeV fuel i x e) = some e) ∧
    (∀ P n e' j, e.flushQueue = [] → flushLoop P n (writeV fuel i x e) = some e' →
      (e'.obs.getD j default).execCount = (e.obs.getD j default).execCount) := by
  have hw : writeV fuel i x e = e := by
    simp [writeV, h]
  refine ⟨hw, by rw [hw], by rw [hw], ?_, ?_⟩
  · intro P n hq
    rw [hw]
    exact flushLoop_empty P n e hq
  · intro P n e' j hq hf
    rw [hw, flushLoop_empty P n e hq] at hf
    cases hf
    rfl

/-- Witness for C2 at a concrete quiescent engine: rewriting the current
value `7` changes nothing and a flush leaves the observer's count at 1. -/
theorem c2_same_value_write_no_invalidate_witness :
    writeV 5 0 (some 7) c2WitEngine = c2WitEngine ∧
    flushLoop trivProg 9 (writeV 5 0 (some 7) c2WitEngine) = some c2WitEngine := by
  have h := c2_same_value_write_no_invalidate c2WitEngine 0 (some 7) 5 (by decide)
  exact ⟨h.1, h.2.2.2.1 trivProg 9 rfl⟩

/-- C6: `isolate` acts as the identity on its body's outcome.  Running
`isolate(body)` under any ambient Context is exactly running `body` with no
current Context (one engine, same value or same raised error, Context
restored intrinsically); in particular `isolate(() => 123) == 123`,
`isolate(() => None) is None`, a thrown error propagates unchanged, and an
isolated read returns the current value while leaving the engine literally
unchanged (no dependency edge to the ambient Context). -/
theorem c6_isolate_identity_passthrough :
    (∀ (P : Program) (f : Nat) (b : Exp) (c : Ctx) (e : Engine),
       evalE P (f+1) (.isolate b) c e = evalE P f b none e) ∧
    (∀ (P : Program) (f : Nat) (c : Ctx) (e : Engine) (v : Val),
       evalE P (f+2) (.isolate (.lit v)) c e = some (e, .ok v)) ∧
    (∀ (P : Program) (f : Nat) (c : Ctx) (e : Engine),
       evalE P (f+2) (.isolate (.lit (some 123))) c e = some (e, .ok (some 123))) ∧
    (∀ (P : Program) (f : Nat) (c : Ctx) (e : Engine),
       evalE P (f+2) (.isolate (.lit none)) c e = some (e, .ok none)) ∧
    (∀ (P : Program) (f : Nat) (c : Ctx) (e : Engine) (k : Err),
       evalE P (f+2) (.isolate (.throw k)) c e = some (e, .error k)) ∧
    (∀ (P : Program) (f : Nat) (c : Ctx) (e : Engine) (i : Nat),
       evalE P (f+2) (.isolate (.readVal i)) c e =
         some (e, .ok ((e.vals.getD i default).current))) := by
  refine ⟨fun P f b c e => rfl, fun P f c e v => rfl, fun P f c e => rfl,
    fun P f c e => rfl, fun P f c e k => rfl, fun P f c e i => ?_⟩
  simp [evalE, readV]

/-! ### Preservation lemmas used for the error-caching claim -/
theorem modifyAt_length (l : List α) (i : Nat) (f : α → α) :
    (modifyAt l i f).length = l.length := by
  induction l generalizing i with
  | nil => simp [modifyAt]
  | cons a as ih =>
    cases i with
    | zero => simp [modifyAt]
    | succ i => simp [modifyAt, ih]

/-- Lemma: `invalidateNodes` does not change the number of reactives. -/
theorem invalidateNodes_reacts_length (f : Nat) (ns : List Node) (e : Engine) :
    (invalidateNodes f ns e).reacts.length = e.reacts.length := by
  induction f generalizing ns e with
  | zero => cases ns <;> simp [invalidateNodes]
  | succ f ih =>
    cases ns with
    | nil => simp [invalidateNodes]
    | cons n rest =>
      cases n with
      | robs i => rw [invalidateNodes, ih]
      | rre i => rw [invalidateNodes, ih]; simp [modifyAt_length]

/-- Lemma: `evalE` does not change the number of reactives in the engine. -/
theorem evalE_reacts_length (P : Program) :
    ∀ (f : Nat) (x : Exp) (c : Ctx) (e e1 : Engine) (r : RResult),
      evalE P f x c e = some (e1, r) → e1.reacts.length = e.reacts.length := by
  intro f
  induction f with
  | zero => intro x c e e1 r h; simp [evalE] at h
  | succ f ih =>
    intro x c e e1 r h
    cases x with
    | lit v =>
        simp only [evalE, Option.some.injEq, Prod.mk.injEq] at h
        rw [← h.1]
    | readVal i =>
        simp only [evalE, Option.some.injEq, Prod.mk.injEq] at h
        rw [← h.1]
        cases c <;> simp [readV, modifyAt_length]
    | writeVal i ex =>
        rw [evalE] at h
        split at h
        · rename_i e2 v heq
          simp only [Option.some.injEq, Prod.mk.injEq] at h
          rw [← h.1]
          have h2 := ih ex c e e2 (.ok v) heq
          simp only [writeV]
          split
          · exact h2
          · rw [invalidateNodes_reacts_length]
            simpa [modifyAt_length] using h2
        · rename_i e2 err heq
          simp only [Option.some.injEq, Prod.mk.injEq] at h
          rw [← h.1]
          exact ih ex c e e2 (.error err) heq
        · exact absurd h (by simp)
    | add a b =>
        rw [evalE] at h
        split at h
        · rename_i e2 v heq
          split at h
          · rename_i e3 v2 heq2
            simp only [Option.some.injEq, Prod.mk.injEq] at h
            rw [← h.1]
            rw [ih b c e2 e3 (.ok v2) heq2, ih a c e e2 (.ok v) heq]
          · rename_i e3 err heq2
            simp only [Option.some.injEq, Prod.mk.injEq] at h
            rw [← h.1]
            rw [ih b c e2 e3 (.error err) heq2, ih a c e e2 (.ok v) heq]
          · exact absurd h (by simp)
        · rename_i e2 err heq
          simp only [Option.some.injEq, Prod.mk.injEq] at h
          rw [← h.1]
          exact ih a c e e2 (.error err) heq
        · exact absurd h (by simp)
    | ifz cnd t el =>
        rw [evalE] at h
        split at h
        · rename_i e2 v heq
          split at h
          · rw [ih t c e2 e1 r h, ih cnd c e e2 (.ok v) heq]
          · rw [ih el c e2 e1 r h, ih cnd c e e2 (.ok v) heq]
        · rename_i e2 err heq
          simp only [Option.some.injEq, Prod.mk.injEq] at h
          rw [← h.1]
          exact ih cnd c e e2 (.error err) heq
        · exact absurd h (by simp)
    | seq a b =>
        rw [evalE] at h
        split at h
        · rename_i e2 v heq
          rw [ih b c e2 e1 r h, ih a c e e2 (.ok v) heq]
        · rename_i e2 err heq
          simp only [Option.some.injEq, Prod.mk.injEq] at h
          rw [← h.1]
          exact ih a c e e2 (.error err) heq
        · exact absurd h (by simp)
    | emit s ex =>
        rw [evalE] at h
        have h2 := ih ex c { e with trace := e.trace ++ [s] } e1 r h
        simpa using h2
    | emitAfter s ex =>
        rw [evalE] at h
        split at h
        · rename_i e2 v heq
          simp only [Option.some.injEq, Prod.mk.injEq] at h
          rw [← h.1]
          exact ih ex c e e2 (.ok v) heq
        · rename_i e2 err heq
          simp only [Option.some.injEq, Prod.mk.injEq] at h
          rw [← h.1]
          exact ih ex c e e2 (.error err) heq
        · exact absurd h (by simp)
    | sleep =>
        simp only [evalE, Option.some.injEq, Prod.mk.injEq] at h
        rw [← h.1]
    | sleepAfter ex =>
        rw [evalE] at h
        exact ih ex c e e1 r h
    | throw n =>
        simp only [evalE, Option.some.injEq, Prod.mk.injEq] at h
        rw [← h.1]
    | isolate ex =>
        rw [evalE] at h
        exact ih ex none e e1 r h
    | invoke i =>
        rw [evalE] at h
        split at h
        · rename_i res heq
          simp only [Option.some.injEq, Prod.mk.injEq] at h
          rw [← h.1]
          cases c <;> simp [recordEdgeR, modifyAt_length]
        · rename_i heq
          dsimp only at h
          split at h
          · rename_i e3 res heq2
            simp only [Option.some.injEq, Prod.mk.injEq] at h
            rw [← h.1]
            have h3 := ih (P.rbody i) (some (.rre i)) _ e3 res heq2
            simp only [finishR, modifyAt_length]
            rw [h3]
            cases c <;> simp [clearEdges, recordEdgeR, modifyAt_length]
          · exact absurd h (by simp)

theorem recordEdgeR_cache (i : Nat) (c : Ctx) (e : Engine) (j : Nat) :
    ((recordEdgeR i c e).reacts.getD j default).cache =
      (e.reacts.getD j default).cache := by
  cases c with
  | none => rfl
  | some n =>
      simp only [recordEdgeR, modifyAt_getD]
      split <;> rfl

theorem recordEdgeR_execCount (i : Nat) (c : Ctx) (e : Engine) (j : Nat) :
    ((recordEdgeR i c e).reacts.getD j default).execCount =
      (e.reacts.getD j default).execCount := by
  cases c with
  | none => rfl
  | some n =>
      simp only [recordEdgeR, modifyAt_getD]
      split <;> rfl

theorem recordEdgeR_obs (i : Nat) (c : Ctx) (e : Engine) :
    (recordEdgeR i c e).obs = e.obs := by
  cases c <;> rfl

theorem recordEdgeR_reacts_length (i : Nat) (c : Ctx) (e : Engine) :
    (recordEdgeR i c e).reacts.length = e.reacts.length := by
  cases c <;> simp [recordEdgeR, modifyAt_length]

theorem clearEdges_reacts_length (n : Node) (e : Engine) :
    (clearEdges n e).reacts.length = e.reacts.length := by
  simp [clearEdges]

/-- Invalidation never restores a cache: once a reactive's cache is `none`,
it stays `none` through any propagation. -/
theorem invalidateNodes_cache_none (f : Nat) (ns : List Node) (e : Engine)
    (i : Nat) (h : (e.reacts.getD i default).cache = none) :
    ((invalidateNodes f ns e).reacts.getD i default).cache = none := by
  induction f generalizing ns e with
  | zero => cases ns <;> exact h
  | succ f ih =>
    cases ns with
    | nil => exact h
    | cons n rest =>
      cases n with
      | robs j => rw [invalidateNodes]; exact ih _ _ h
      | rre j =>
          rw [invalidateNodes]
          refine ih _ _ ?_
          rw [modifyAt_getD]
          split
          · rfl
          · exact h

/-- C7: a Reactive whose body throws during `invoke()` caches the thrown
error as that execution's outcome; every subsequent `invoke()` while it is
still valid re-raises the very same cached error without re-running the
body (no execution count changes anywhere, no observer state changes);
invalidating the Reactive clears the cached outcome, and the next
`invoke()` after any invalidation re-executes the body, whose new outcome
(success or failure) is cached independently of the previous one. -/
theorem c7_reactive_error_cached
    (P : Program) (f : Nat) (c : Ctx) (e e1 : Engine) (i : Nat) (err : Err)
    (hinv : (e.reacts.getD i default).cache = none)
    (hlen : i < e.reacts.length)
    (hbody : evalE P f (P.rbody i) (some (.rre i))
        (clearEdges (.rre i) (recordEdgeR i c e)) = some (e1, .error err)) :
    evalE P (f+1) (.invoke i) c e = some (finishR i (.error err) e1, .error err) ∧
    ((finishR i (.error err) e1).reacts.getD i default).cache = some (.error err) ∧
    ((finishR i (.error err) e1).reacts.getD i default).execCount
      = (e1.reacts.getD i default).execCount + 1 ∧
    (∀ (f2 : Nat) (c2 : Ctx) (e2 : Engine),
       (e2.reacts.getD i default).cache = some (.error err) →
       evalE P (f2+1) (.invoke i) c2 e2 = some (recordEdgeR i c2 e2, .error err) ∧
       (∀ j, ((recordEdgeR i c2 e2).reacts.getD j default).execCount
               = (e2.reacts.getD j default).execCount) ∧
       (recordEdgeR i c2 e2).obs = e2.obs) ∧
    (∀ (fi : Nat) (e2 : Engine), i < e2.reacts.length →
       ((invalidateNodes (fi+1) [.rre i] e2).reacts.getD i default).cache = none) ∧
    (∀ (f2 : Nat) (c2 : Ctx) (e2 e3 : Engine) (res : RResult),
       (e2.reacts.getD i default).cache = none →
       evalE P f2 (P.rbody i) (some (.rre i))
           (clearEdges (.rre i) (recordEdgeR i c2 e2)) = some (e3, res) →
       evalE P (f2+1) (.invoke i) c2 e2 = some (finishR i res e3, res)) := by
  have hlen1 : i < e1.reacts.length := by
    have h2 := evalE_reacts_length P f (P.rbody i) (some (.rre i)) _ e1 (.error err) hbody
    rw [h2, clearEdges_reacts_length, recordEdgeR_reacts_length]
    exact hlen
  have hrun : ∀ (f2 : Nat) (c2 : Ctx) (e2 e3 : Engine) (res : RResult),
      (e2.reacts.getD i default).cache = none →
      evalE P f2 (P.rbody i) (some (.rre i))
          (clearEdges (.rre i) (recordEdgeR i c2 e2)) = some (e3, res) →
      evalE P (f2+1) (.invoke i) c2 e2 = some (finishR i res e3, res) := by
    intro f2 c2 e2 e3 res hc hb
    have hc2 : ((recordEdgeR i c2 e2).reacts.getD i default).cache = none := by
      rw [recordEdgeR_cache]; exact hc
    rw [evalE]
    rw [hc2]
    dsimp only
    rw [hb]
  refine ⟨hrun f c e e1 (.error err) hinv hbody, ?_, ?_, ?_, ?_, hrun⟩
  · show ((modifyAt e1.reacts i _).getD i default).cache = some (.error err)
    rw [modifyAt_getD, if_pos ⟨rfl, hlen1⟩]
  · show ((modifyAt e1.reacts i _).getD i default).execCount
      = (e1.reacts.getD i default).execCount + 1
    rw [modifyAt_getD, if_pos ⟨rfl, hlen1⟩]
  · intro f2 c2 e2 hc
    have hc2 : ((recordEdgeR i c2 e2).reacts.getD i default).cache
        = some (.error err) := by
      rw [recordEdgeR_cache]; exact hc
    refine ⟨?_, fun j => recordEdgeR_execCount i c2 e2 j, recordEdgeR_obs i c2 e2⟩
    rw [evalE]
    rw [hc2]
  · intro fi e2 hl2
    rw [invalidateNodes]
    refine invalidateNodes_cache_none _ _ _ _ ?_
    rw [modifyAt_getD, if_pos ⟨rfl, hl2⟩]

/-- Witness for C7: invoking the throwing reactive raises error 7 and caches
it; a second invoke re-raises the cached error without running the body. -/
theorem c7_reactive_error_cached_witness :
    evalE c7WitProg 2 (.invoke 0) none c7WitEngine
      = some (finishR 0 (.error 7) c7WitEngine, .error 7) ∧
    ((finishR 0 (.error 7) c7WitEngine).reacts.getD 0 default).cache
      = some (.error 7) ∧
    evalE c7WitProg 9 (.invoke 0) none (finishR 0 (.error 7) c7WitEngine)
      = some (recordEdgeR 0 none (finishR 0 (.error 7) c7WitEngine), .error 7) := by
  have h := c7_reactive_error_cached c7WitProg 1 none c7WitEngine c7WitEngine 0 7
    (by decide) (by decide) (by decide)
  exact ⟨h.1, h.2.1, (h.2.2.2.1 8 none (finishR 0 (.error 7) c7WitEngine) h.2.1).1⟩

/-- One write-then-flush step preserves the C4 invariant and moves the
abstract state by `c4SpecStep`. -/
theorem c4_inv_step (s : Int × Int × Nat × Int) (e : Engine)
    (h : C4Inv s e) (w : Bool × Int) :
    ∃ e1, c4Apply e w = some e1 ∧ C4Inv (c4SpecStep s w) e1 := by
  obtain ⟨v, vd, k, res⟩ := s
  obtain ⟨ra, rb, n, dva, cache, rfl, hdva, hcache⟩ := h
  obtain ⟨b, y⟩ := w
  cases b with
  | false =>
      by_cases hy : y = v
      · subst hy
        refine ⟨_, ?_, ra, rb, n, dva, cache, rfl, hdva, hcache⟩
        simp [c4Apply, writeV, modifyAt, flushLoop, c4SpecStep]
      · rcases hdva with rfl | rfl
        · rcases hcache with rfl | ⟨_, hd⟩
          · refine ⟨_, ?_, ra+1, rb, n, [], none, rfl, Or.inl rfl, Or.inl rfl⟩
            simp [c4Apply, writeV, modifyAt, flushLoop, invalidateNodes, hy]
          · exact absurd hd (by simp)
        · refine ⟨_, ?_, ra+1, rb, n, [], none, rfl, Or.inl rfl, Or.inl rfl⟩
          simp [c4Apply, writeV, modifyAt, flushLoop, invalidateNodes, hy]
  | true =>
      by_cases hy : y = vd
      · have hstep : c4SpecStep (v, vd, k, res) (true, y) = (v, vd, k, res) := by
          simp [c4SpecStep, hy]
        rw [hstep]
        refine ⟨_, ?_, ra, rb, n, dva, cache, rfl, hdva, hcache⟩
        simp [c4Apply, writeV, modifyAt, flushLoop, hy]
      · have hstep : c4SpecStep (v, vd, k, res) (true, y) = (v, y, k+1, v + 10) := by
          simp [c4SpecStep, hy]
        rw [hstep]
        rcases hcache with rfl | ⟨rfl, rfl⟩
        · rcases hdva with rfl | rfl
          · refine ⟨_, ?_, ra, rb+1, n+1, [.rre 0], some (.ok (some (v+10))), rfl,
              Or.inr rfl, Or.inr ⟨rfl, rfl⟩⟩
            simp [c4Apply, writeV, modifyAt, flushLoop, invalidateNodes, clearEdges,
              evalE, readV, recordEdgeR, addDep, vadd, finishR, finishO, c4Prog,
              List.erase, hy]
            decide
          · refine ⟨_, ?_, ra, rb+1, n+1, [.rre 0], some (.ok (some (v+10))), rfl,
              Or.inr rfl, Or.inr ⟨rfl, rfl⟩⟩
            simp [c4Apply, writeV, modifyAt, flushLoop, invalidateNodes, clearEdges,
              evalE, readV, recordEdgeR, addDep, vadd, finishR, finishO, c4Prog,
              List.erase, hy]
            decide
        · refine ⟨_, ?_, ra, rb+1, n, [.rre 0], some (.ok (some (v+10))), rfl,
            Or.inr rfl, Or.inr ⟨rfl, rfl⟩⟩
          simp [c4Apply, writeV, modifyAt, flushLoop, invalidateNodes, clearEdges,
            evalE, readV, recordEdgeR, addDep, vadd, finishR, finishO, c4Prog,
            List.erase, hy]
          decide

/-- Any sequence of writes keeps the C4 invariant, tracking `c4SpecRun`. -/
theorem c4_run_inv (ws : List (Bool × Int)) :
    ∀ (s : Int × Int × Nat × Int) (e : Engine), C4Inv s e →
      ∃ e1, c4Run e ws = some e1 ∧ C4Inv (c4SpecRun s ws) e1 := by
  induction ws with
  | nil => intro s e h; exact ⟨e, rfl, h⟩
  | cons w ws ih =>
      intro s e h
      obtain ⟨e1, happ, hinv⟩ := c4_inv_step s e h w
      obtain ⟨e2, hrun, hinv2⟩ := ih (c4SpecStep s w) e1 hinv
      refine ⟨e2, ?_, hinv2⟩
      rw [c4Run, happ]
      exact hrun

/-- C4: in the isolate scenario (`r = v + 10` read only inside `isolate()`
by an Observer that also reads `v_dep`), for every sequence of writes:
writes to `v` alone never change the Observer's execution count, each write
of a different value to `v_dep` re-runs it exactly once, and the captured
result after a re-run is the then-current `v + 10` — all as predicted by
the abstract fold `c4SpecRun` from the post-initial-flush state
(`v = v_dep = 1`, count 1, captured result 11). -/
theorem c4_isolate_blocks_dependency (ws : List (Bool × Int)) :
    flushLoop c4Prog 30 c4Init = some c4Start ∧
    ∃ e1, c4Run c4Start ws = some e1 ∧
      (e1.obs.getD 0 default).execCount = (c4SpecRun (1, 1, 1, 11) ws).2.2.1 ∧
      (e1.obs.getD 0 default).lastResult
        = some (.ok (some (c4SpecRun (1, 1, 1, 11) ws).2.2.2)) ∧
      (e1.vals.getD 0 default).current = some (c4SpecRun (1, 1, 1, 11) ws).1 ∧
      (e1.vals.getD 1 default).current = some (c4SpecRun (1, 1, 1, 11) ws).2.1 := by
  refine ⟨by decide, ?_⟩
  have h0 : C4Inv (1, 1, 1, 11) c4Start :=
    ⟨0, 0, 1, [.rre 0], some (.ok (some 11)), by decide, Or.inr rfl,
      Or.inr ⟨by decide, rfl⟩⟩
  obtain ⟨e1, hrun, hinv⟩ := c4_run_inv ws (1, 1, 1, 11) c4Start h0
  rcases ht : c4SpecRun (1, 1, 1, 11) ws with ⟨v, vd, k, res⟩
  rw [ht] at hinv
  obtain ⟨ra, rb, n, dva, cache, rfl, hdva, hcache⟩ := hinv
  exact ⟨_, hrun, rfl, rfl, rfl, rfl⟩

/-- C5: two asynchronous Observer-awaiting-Reactive chains launched
together, each with one suspension point in the Observer and one in the
Reactive: their synchronous segments interleave in launch order at every
suspension boundary (lock-step: chain 1 segment 1, chain 2 segment 1,
chain 1 segment 2, ...), both chains complete within the same `flush()`
call with independently computed results (111 and 211 for `x = 1`), and
after `x(5)` the next flush repeats the same lock-step interleaving with
results 115 and 215. -/
theorem c5_async_concurrent_lockstep :
    (flushAsync c5Prog 5 c5Init).isSome = true ∧
    c5Mid.trace = lockStep c5Segs1 c5Segs2 ∧
    c5Mid.flushQueue = [] ∧
    (c5Mid.obs.getD 0 default).execCount = 1 ∧
    (c5Mid.obs.getD 1 default).execCount = 1 ∧
    (c5Mid.obs.getD 0 default).lastResult = some (.ok (some 111)) ∧
    (c5Mid.obs.getD 1 default).lastResult = some (.ok (some 211)) ∧
    (flushAsync c5Prog 5 (writeV 30 0 (some 5) c5Mid)).isSome = true ∧
    c5End.trace = lockStep c5Segs1 c5Segs2 ++ lockStep c5Segs1 c5Segs2 ∧
    c5End.flushQueue = [] ∧
    (c5End.obs.getD 0 default).execCount = 2 ∧
    (c5End.obs.getD 1 default).execCount = 2 ∧
    (c5End.obs.getD 0 default).lastResult = some (.ok (some 115)) ∧
    (c5End.obs.getD 1 default).lastResult = some (.ok (some 215)) := by
  decide

/-- C8: every UI-builder constructor (`nav`, `nav_menu`, `nav_item`,
`nav_spacer`, the `navs_*` family, `modal`, `modal_button`) only builds and
returns a markup tree: run in state-passing form over the reactive engine
and session outbox, each call leaves the whole state unchanged for every
argument list and returns exactly its pure markup value (no Context push,
no ReactiveValue write, no Observer scheduling, no FlushQueue entry, no
session I/O). -/
theorem c8_ui_builders_touch_no_engine_state :
    (∀ (st : UIState) (title : AVal) (args : List HTag) (value : Option String),
       (navS title args value st).1 = st ∧
       (navS title args value st).2 = nav title args value) ∧
    (∀ (st : UIState) (title : AVal) (args : List HTag) (value : Option String)
       (align : String),
       (nav_menuS title args value align st).1 = st ∧
       (nav_menuS title args value align st).2 = nav_menu title args value align) ∧
    (∀ (st : UIState) (args : List HTag),
       (nav_itemS args st).1 = st ∧ (nav_itemS args st).2 = nav_item args) ∧
    (∀ st : UIState, (nav_spacerS st).1 = st ∧ (nav_spacerS st).2 = nav_spacer) ∧
    (∀ (st : UIState) (args : List HTag) (id selected : Option String)
       (header footer : Option HTag),
       (navs_tabS args id selected header footer st).1 = st ∧
       (navs_tab_cardS args id selected header footer st).1 = st ∧
       (navs_pillS args id selected header footer st).1 = st) ∧
    (∀ (st : UIState) (args : List HTag) (id selected : Option String)
       (header footer : Option HTag) (placement : String),
       (navs_pill_cardS args id selected header footer placement st).1 = st) ∧
    (∀ (st : UIState) (args : List HTag) (id selected : Option String)
       (header footer : Option HTag) (well fluid : Bool) (widths : Int × Int),
       (navs_pill_listS args id selected header footer well fluid widths st).1 = st) ∧
    (∀ (st : UIState) (args : List HTag) (title : Option String)
       (id selected : Option String) (position : String)
       (header footer : Option HTag) (bg : Option String) (inverse : AVal)
       (collapsible fluid : Bool),
       (navs_barS args title id selected position header footer bg inverse
          collapsible fluid st).1 = st) ∧
    (∀ (st : UIState) (label icon : HTag) (kwargs : List (String × AVal)),
       (modal_buttonS label icon kwargs st).1 = st ∧
       (modal_buttonS label icon kwargs st).2 = modal_button label icon kwargs) ∧
    (∀ (st : UIState) (args : List HTag) (title : Option String)
       (footer : Option HTag) (size : String)
       (easy_close dismiss_button fade : Bool) (kwargs : List (String × AVal)),
       (modalS args title footer size easy_close dismiss_button fade kwargs st).1 = st ∧
       (modalS args title footer size easy_close dismiss_button fade kwargs st).2
         = modal args title footer size easy_close dismiss_button fade kwargs) := by
  exact ⟨fun _ _ _ _ => ⟨rfl, rfl⟩, fun _ _ _ _ _ => ⟨rfl, rfl⟩,
    fun _ _ => ⟨rfl, rfl⟩, fun _ => ⟨rfl, rfl⟩,
    fun _ _ _ _ _ _ => ⟨rfl, rfl, rfl⟩, fun _ _ _ _ _ _ _ => rfl,
    fun _ _ _ _ _ _ _ _ _ => rfl, fun _ _ _ _ _ _ _ _ _ _ _ _ => rfl,
    fun _ _ _ _ => ⟨rfl, rfl⟩, fun _ _ _ _ _ _ _ _ _ => ⟨rfl, rfl⟩⟩

/-- C9: `notification_remove(id, session)` returns exactly the id it was
given, yet the message it sends is always
`{"notification": {"type": "remove", "message": None}}` — the id never
appears in the payload, so the transmitted message is identical for all
ids. -/
theorem c9_notification_remove_ignores_id :
    ∀ (id : String) (session : Session),
      (notification_remove id session).2 = id ∧
      (notification_remove id session).1 = session ++ [.notifRemove none] ∧
      ∀ id2 : String,
        (notification_remove id session).1 = (notification_remove id2 session).1 := by
  exact fun id session => ⟨rfl, rfl, fun id2 => rfl⟩

/-- C10: in `notification_show` the sent payload has a `"duration"` entry
iff the `duration` argument is truthy, and then its value is
`duration * 1000`; `duration=0` produces exactly the same message as
`duration=None` (even though the declared default is 5, which yields
5000); and when `id` is falsy (`None` or `""`) the payload's id is the
freshly generated `rand_hex(seed, 8)`, an 8-character string of
hexadecimal digits. -/
theorem c10_notification_show_duration_and_id :
    ∀ (ui action : ProcessedDeps) (cb : Bool) (id : Option String)
      (type : String) (seed : Nat) (session : Session),
      (∀ d : Int,
        (shownPayload ui action (some d) cb id type seed).duration
          = if d = 0 then none else some (d * 1000)) ∧
      (shownPayload ui action none cb id type seed).duration = none ∧
      (shownPayload ui action (some 5) cb id type seed).duration = some 5000 ∧
      notification_show ui action (some 0) cb id type seed session
        = notification_show ui action none cb id type seed session ∧
      (∀ d : Int, notification_show ui action (some d) cb id type seed session
        = session ++ [.notifShow (shownPayload ui action (some d) cb id type seed)]) ∧
      (shownPayload ui action (some 5) cb none type seed).id = rand_hex seed 8 ∧
      (shownPayload ui action (some 5) cb (some "") type seed).id = rand_hex seed 8 ∧
      (rand_hex seed 8).length = 8 ∧
      (∀ c ∈ (rand_hex seed 8).data, c ∈ hexDigits) := by
  intro ui action cb id type seed session
  refine ⟨?_, rfl, ?_, ?_, fun d => rfl, ?_, ?_, ?_, ?_⟩
  · intro d
    by_cases hd : d = 0
    · simp [shownPayload, pyTruthyNum, hd]
    · simp [shownPayload, pyTruthyNum, hd]
  · simp [shownPayload, pyTruthyNum]
  · simp [notification_show, pyTruthyNum]
  · simp [shownPayload, pyTruthyStr]
  · simp [shownPayload, pyTruthyStr]
  · simp [rand_hex, String.length]
  · intro c hc
    simp only [rand_hex, String.data] at hc
    simp only [List.mem_map] at hc
    obtain ⟨i, _, rfl⟩ := hc
    by_cases h : seed / 16 ^ i % 16 < hexDigits.length
    · rw [List.getD_eq_getElem hexDigits '0' h]
      exact List.getElem_mem h
    · rw [List.getD_eq_default hexDigits '0' (by omega)]
      decide

/-- Witness for C10 at concrete inputs: `duration=0` sends the same message
as `duration=None`, a `None` id is replaced by `rand_hex(seed, 8)`, the
generated id has length 8, and its first character is a hex digit. -/
theorem c10_notification_show_duration_and_id_witness :
    notification_show ⟨"h", []⟩ ⟨"a", []⟩ (some 0) true (some "x") "default" 3 []
      = notification_show ⟨"h", []⟩ ⟨"a", []⟩ none true (some "x") "default" 3 [] ∧
    (shownPayload ⟨"h", []⟩ ⟨"a", []⟩ (some 5) true none "default" 3).id
      = rand_hex 3 8 ∧
    (rand_hex 3 8).length = 8 ∧
    ('3' : Char) ∈ hexDigits := by
  have h := c10_notification_show_duration_and_id ⟨"h", []⟩ ⟨"a", []⟩ true
    (some "x") "default" 3 []
  exact ⟨h.2.2.2.1, h.2.2.2.2.2.1, h.2.2.2.2.2.2.2.1,
    h.2.2.2.2.2.2.2.2 '3' (by decide)⟩

end Shiny

